import Mathlib

/-!
Verification development for a minimal S3-compatible object-store client
(Go package objsto).  The client exposes Get and Put over HTTP with AWS
Signature Version 4 request signing.  We embed the signing algorithm, the
payload hasher, the request builder, the transport invoker and the public
facade as executable Lean definitions, translated from objsto.go, and prove
the specified properties about them.

Bytes are modelled as natural numbers below 256 (Go byte), byte strings as
List Nat, and Go strings as Lean String (converted to bytes code-point-wise,
which agrees with Go's UTF-8 conversion on the ASCII inputs involved here).
-/

set_option maxRecDepth 100000

namespace ObjSto

/-! SHA-256, as computed by Go's crypto/sha256, embedded executably over
byte lists.  The implementation follows FIPS 180-4 directly: padding,
big-endian word conversion, 48-step message-schedule extension and the
64-round compression function over 32-bit words represented as Nat mod 2^32. -/

def w32 : Nat := 4294967296

def rotr (n x : Nat) : Nat := ((x >>> n) ||| (x <<< (32 - n))) % w32

def ch (e f g : Nat) : Nat := (e &&& f) ^^^ ((4294967295 - e) &&& g)

def maj (a b c : Nat) : Nat := (a &&& b) ^^^ (a &&& c) ^^^ (b &&& c)

def bigSigma0 (a : Nat) : Nat := rotr 2 a ^^^ rotr 13 a ^^^ rotr 22 a

def bigSigma1 (e : Nat) : Nat := rotr 6 e ^^^ rotr 11 e ^^^ rotr 25 e

def smallSigma0 (x : Nat) : Nat := rotr 7 x ^^^ rotr 18 x ^^^ (x >>> 3)

def smallSigma1 (x : Nat) : Nat := rotr 17 x ^^^ rotr 19 x ^^^ (x >>> 10)

def roundK : List Nat :=
  [1116352408, 1899447441, 3049323471, 3921009573, 961987163,
   1508970993, 2453635748, 2870763221, 3624381080, 310598401,
   607225278, 1426881987, 1925078388, 2162078206, 2614888103,
   3248222580, 3835390401, 4022224774, 264347078, 604807628,
   770255983, 1249150122, 1555081692, 1996064986, 2554220882,
   2821834349, 2952996808, 3210313671, 3336571891, 3584528711,
   113926993, 338241895, 666307205, 773529912, 1294757372,
   1396182291, 1695183700, 1986661051, 2177026350, 2456956037,
   2730485921, 2820302411, 3259730800, 3345764771, 3516065817,
   3600352804, 4094571909, 275423344, 430227734, 506948616,
   659060556, 883997877, 958139571, 1322822218, 1537002063,
   1747873779, 1955562222, 2024104815, 2227730452, 2361852424,
   2428436474, 2756734187, 3204031479, 3329325298]

structure Hash8 where
  a : Nat
  b : Nat
  c : Nat
  d : Nat
  e : Nat
  f : Nat
  g : Nat
  h : Nat
deriving DecidableEq

def initH : Hash8 :=
  ⟨1779033703, 3144134277, 1013904242, 2773480762,
   1359893119, 2600822924, 528734635, 1541459225⟩

/-- One round of the compression function; kw pairs the round constant with
the schedule word. -/
def roundStep (st : Hash8) (kw : Nat × Nat) : Hash8 :=
  let t1 := (st.h + bigSigma1 st.e + ch st.e st.f st.g + kw.1 + kw.2) % w32
  let t2 := (bigSigma0 st.a + maj st.a st.b st.c) % w32
  ⟨(t1 + t2) % w32, st.a, st.b, st.c, (st.d + t1) % w32, st.e, st.f, st.g⟩

/-- Next schedule word from the previous sixteen, most recent first. -/
def schedNext (recent : List Nat) : Nat :=
  (smallSigma1 (recent.getD 1 0) + recent.getD 6 0
    + smallSigma0 (recent.getD 14 0) + recent.getD 15 0) % w32

def schedExtend : Nat → List Nat → List Nat
  | 0, acc => acc
  | n + 1, acc => schedExtend n (schedNext acc :: acc)

/-- Extends a sixteen-word block to the 64-word message schedule. -/
def scheduleWords (ws : List Nat) : List Nat := (schedExtend 48 ws.reverse).reverse

def compress (hs : Hash8) (block : List Nat) : Hash8 :=
  let st := List.foldl roundStep hs (roundK.zip (scheduleWords block))
  ⟨(hs.a + st.a) % w32, (hs.b + st.b) % w32, (hs.c + st.c) % w32, (hs.d + st.d) % w32,
   (hs.e + st.e) % w32, (hs.f + st.f) % w32, (hs.g + st.g) % w32, (hs.h + st.h) % w32⟩

/-- Big-endian eight-byte encoding of the bit length, for padding. -/
def lenBytes (n : Nat) : List Nat :=
  [(n >>> 56) % 256, (n >>> 48) % 256, (n >>> 40) % 256, (n >>> 32) % 256,
   (n >>> 24) % 256, (n >>> 16) % 256, (n >>> 8) % 256, n % 256]

/-- SHA-256 padding: 0x80, zeros to 56 mod 64, then the 64-bit bit length. -/
def padMessage (msg : List Nat) : List Nat :=
  msg ++ [128] ++ List.replicate ((119 - msg.length % 64) % 64) 0 ++ lenBytes (8 * msg.length)

/-- Big-endian conversion of bytes to 32-bit words, four bytes per word. -/
def toWords : List Nat → List Nat
  | a :: b :: c :: d :: rest => (a * 16777216 + b * 65536 + c * 256 + d) :: toWords rest
  | _ => []

/-- Folds the compression function over the 16-word blocks of a word list;
the first argument is recursion fuel, at least the number of blocks. -/
def blocksGo : Nat → List Nat → Hash8 → Hash8
  | 0, _, hs => hs
  | _ + 1, [], hs => hs
  | fuel + 1, ws, hs => blocksGo fuel (ws.drop 16) (compress hs (ws.take 16))

def wordBytes (w : Nat) : List Nat :=
  [(w >>> 24) % 256, (w >>> 16) % 256, (w >>> 8) % 256, w % 256]

/-- SHA-256 digest of a byte list, as 32 bytes. -/
def sha256Bytes (msg : List Nat) : List Nat :=
  let ws := toWords (padMessage msg)
  let hs := blocksGo ws.length ws initH
  wordBytes hs.a ++ wordBytes hs.b ++ wordBytes hs.c ++ wordBytes hs.d
    ++ wordBytes hs.e ++ wordBytes hs.f ++ wordBytes hs.g ++ wordBytes hs.h

def hexDigit (n : Nat) : Char := Char.ofNat (if n < 10 then 48 + n else 87 + n)

/-- Lowercase hex encoding of a byte list, as Go's encoding/hex produces. -/
def hexEncode (bs : List Nat) : String :=
  String.mk (bs.foldr (fun b acc => hexDigit (b / 16 % 16) :: hexDigit (b % 16) :: acc) [])

def sha256Hex (bs : List Nat) : String := hexEncode (sha256Bytes bs)

/-- Go []byte(s) conversion, restricted to the ASCII strings used here,
where UTF-8 bytes coincide with code points. -/
def strBytes (s : String) : List Nat := s.toList.map Char.toNat

def strOfBytes (bs : List Nat) : String := String.mk (bs.map Char.ofNat)

/-- HMAC-SHA256 keyed hash over byte lists, as Go's crypto/hmac computes it
for the SHA-256 block size of 64 bytes. -/
def hmacBytes (key msg : List Nat) : List Nat :=
  let k0 := if 64 < key.length then sha256Bytes key else key
  let k := k0 ++ List.replicate (64 - k0.length) 0
  sha256Bytes ((k.map (fun b => b ^^^ 92)) ++ sha256Bytes ((k.map (fun b => b ^^^ 54)) ++ msg))

/-! Substring search over strings, used to state that error messages contain
(or fail to contain) a given fragment. -/

def listStarts : List Char → List Char → Bool
  | _, [] => true
  | [], _ :: _ => false
  | a :: as, b :: bs => a == b && listStarts as bs

def listHasSub (sub : List Char) : List Char → Bool
  | [] => sub.isEmpty
  | a :: t => listStarts (a :: t) sub || listHasSub sub t

def strIncludes (s sub : String) : Bool := listHasSub sub.toList s.toList

/-! Timestamps.  Go formats time.Now().UTC() with the reference layouts
20060102T150405Z and 20060102; we model a UTC timestamp at second precision
and the two layouts directly. -/

structure DateTime where
  year : Nat
  month : Nat
  day : Nat
  hour : Nat
  minute : Nat
  second : Nat
deriving DecidableEq

def pad2 (n : Nat) : String := if n < 10 then "0" ++ toString n else toString n

def pad4 (n : Nat) : String :=
  if n < 10 then "000" ++ toString n
  else if n < 100 then "00" ++ toString n
  else if n < 1000 then "0" ++ toString n
  else toString n

/-- Go layout 20060102T150405Z applied to a UTC timestamp. -/
def fmtAmzDate (t : DateTime) : String :=
  pad4 t.year ++ pad2 t.month ++ pad2 t.day ++ "T"
    ++ pad2 t.hour ++ pad2 t.minute ++ pad2 t.second ++ "Z"

/-- Go layout 20060102 applied to a UTC timestamp. -/
def fmtDateStamp (t : DateTime) : String := pad4 t.year ++ pad2 t.month ++ pad2 t.day

/-! The signature engine, translated from signRequest, sha256Hash, hmacSHA256
and getSignatureKey in objsto.go. -/

def service : String := "s3"

def sha256Hash (data : String) : String := sha256Hex (strBytes data)

def hmacSHA256 (key : List Nat) (data : String) : List Nat := hmacBytes key (strBytes data)

def getSignatureKey (secret date region svc : String) : List Nat :=
  let kDate := hmacSHA256 (strBytes ("AWS4" ++ secret)) date
  let kRegion := hmacSHA256 kDate region
  let kService := hmacSHA256 kRegion svc
  let kSigning := hmacSHA256 kService "aws4_request"
  kSigning

/-- SigV4 signing, translated line by line from signRequest in objsto.go.
The Go function returns a map with exactly these three keys; we return the
corresponding association list. -/
def signRequest (method region host path accessKey secretKey payloadHash : String)
    (t : DateTime) : List (String × String) :=
  let amzDate := fmtAmzDate t
  let dateStamp := fmtDateStamp t
  let canonicalHeaders :=
    "host:" ++ host ++ "\n" ++ "x-amz-content-sha256:" ++ payloadHash ++ "\n"
      ++ "x-amz-date:" ++ amzDate ++ "\n"
  let signedHeaders := "host;x-amz-content-sha256;x-amz-date"
  let canonicalRequest :=
    method ++ "\n" ++ path ++ "\n" ++ "\n" ++ canonicalHeaders ++ "\n"
      ++ signedHeaders ++ "\n" ++ payloadHash
  let credentialScope := dateStamp ++ "/" ++ region ++ "/" ++ service ++ "/aws4_request"
  let stringToSign :=
    "AWS4-HMAC-SHA256" ++ "\n" ++ amzDate ++ "\n" ++ credentialScope ++ "\n"
      ++ sha256Hash canonicalRequest
  let signingKey := getSignatureKey secretKey dateStamp region service
  let signature := hexEncode (hmacSHA256 signingKey stringToSign)
  let authHeader :=
    "AWS4-HMAC-SHA256 Credential=" ++ accessKey ++ "/" ++ credentialScope
      ++ ", SignedHeaders=" ++ signedHeaders ++ ", Signature=" ++ signature
  [("Authorization", authHeader), ("x-amz-date", amzDate), ("x-amz-content-sha256", payloadHash)]

/-! The payload hasher and request builder.  A Go io.ReadSeeker is modelled
as a byte list with a current position; the flags record whether its Read or
Seek operations fail when invoked, so that hashPayload's two error paths are
expressible. -/

structure Source where
  data : List Nat
  pos : Nat
  readErr : Bool
  seekErr : Bool
deriving DecidableEq

/-- Errors of the client, one constructor per errors.Errorf site in
objsto.go, carrying the values the Go code formats into the message. -/
inductive ObjStoErr where
  | blankObject : ObjStoErr
  | hashErr : ObjStoErr
  | seekErr : ObjStoErr
  | transport : String → ObjStoErr
  | provider : String → String → String → String → ObjStoErr
  | httpErr : Nat → String → ObjStoErr
deriving DecidableEq

/-- Message text of each error, following the Go format strings. -/
def ObjStoErr.message : ObjStoErr → String
  | .blankObject => "object cannot be blank"
  | .hashErr => "failed to hash body"
  | .seekErr => "failed to seek body"
  | .transport url => "failed request to " ++ url
  | .provider code requestId m headers =>
      "s3 error, code: " ++ code ++ ", request_id: " ++ requestId
        ++ ", message: " ++ m ++ ", headers: " ++ headers
  | .httpErr status body => "http error, status: " ++ toString status ++ ", body: " ++ body

/-- Payload hashing, translated from hashPayload in objsto.go: a nil body
hashes zero bytes; otherwise io.Copy consumes the source from its current
position (failing with the hash error if Read fails), then Seek(0, SeekStart)
rewinds it (failing with the seek error if Seek fails).  On success the
source is returned at position zero alongside the hex digest and the byte
count io.Copy reported. -/
def hashPayload : Option Source → Except ObjStoErr (String × Nat × Option Source)
  | none => Except.ok (sha256Hex [], 0, none)
  | some s =>
    if s.readErr then Except.error ObjStoErr.hashErr
    else if s.seekErr then Except.error ObjStoErr.seekErr
    else Except.ok (sha256Hex (s.data.drop s.pos), (s.data.drop s.pos).length,
      some { s with pos := 0 })

structure Client where
  region : String
  scheme : String
  host : String
  bucket : String
  accessKey : String
  secretKey : String
deriving DecidableEq

/-- Outgoing HTTP request as buildRequest decorates it: the body field holds
the bytes the transport will read from the source after the hash stage has
rewound it. -/
structure Request where
  method : String
  uri : String
  path : String
  contentLength : Nat
  headers : List (String × String)
  body : List Nat
deriving DecidableEq

def getHeader (r : Request) (k : String) : Option String := r.headers.lookup k

/-- Request construction, translated from buildRequest in objsto.go: blank
object keys are rejected first, then the path and URI are composed, the
payload hashed and rewound, and the signature headers computed from the one
captured timestamp and merged onto the request. -/
def buildRequest (c : Client) (method object : String) (pyld : Option Source)
    (now : DateTime) : Except ObjStoErr Request :=
  if object = "" then Except.error ObjStoErr.blankObject
  else
    let path := "/" ++ c.bucket ++ "/" ++ object
    let uri := c.scheme ++ "://" ++ c.host ++ path
    match hashPayload pyld with
    | Except.error e => Except.error e
    | Except.ok (hash, size, pyld2) =>
      Except.ok
        { method := method
          uri := uri
          path := path
          contentLength := size
          headers := signRequest method c.region c.host path c.accessKey c.secretKey hash now
          body := match pyld2 with
                  | none => []
                  | some s2 => s2.data.drop s2.pos }

/-! The transport invoker.  Go's encoding/xml unmarshalling of the error
body is external library code, so parseS3Error is parameterized by the
unmarshal function: none models an xml.Unmarshal error, some the decoded
struct (fields absent from the document are left as empty strings, exactly
as Go leaves zero values). -/

structure s3Error where
  Code : String
  Message : String
  RequestID : String
deriving DecidableEq

structure Response where
  statusCode : Nat
  body : List Nat
  headers : String
deriving DecidableEq

inductive DoResult where
  | err : DoResult
  | ok : Response → DoResult

/-- Error classification, translated from parseS3Error in objsto.go: at most
4096 bytes of the body are read; if they unmarshal, the provider error with
the decoded fields and the response headers is produced, otherwise the
generic HTTP error with the raw status and the truncated body text. -/
def parseS3Error (unmarshal : List Nat → Option s3Error) (resp : Response) : ObjStoErr :=
  let bodyBytes := resp.body.take 4096
  match unmarshal bodyBytes with
  | none => ObjStoErr.httpErr resp.statusCode (strOfBytes bodyBytes)
  | some s3Err => ObjStoErr.provider s3Err.Code s3Err.RequestID s3Err.Message resp.headers

/-- Transport invocation, translated from sendRequest in objsto.go.  The
boolean records whether the response body was closed inside the call (the
deferred Close on the non-2xx path). -/
def sendRequest (unmarshal : List Nat → Option s3Error) (req : Request)
    (doer : Request → DoResult) : Except ObjStoErr Response × Bool :=
  match doer req with
  | DoResult.err => (Except.error (ObjStoErr.transport req.uri), false)
  | DoResult.ok resp =>
    if resp.statusCode < 200 ∨ 300 ≤ resp.statusCode then
      (Except.error (parseS3Error unmarshal resp), true)
    else (Except.ok resp, false)

/-! The public facade.  Get and Put are translated from objsto.go; each
output also records the list of requests handed to the injected transport,
so that claims about the number and shape of transport calls are statable. -/

structure GetOut where
  result : Except ObjStoErr (List Nat)
  calls : List Request

structure PutOut where
  result : Except ObjStoErr Unit
  calls : List Request

def Get (c : Client) (doer : Request → DoResult) (unmarshal : List Nat → Option s3Error)
    (object : String) (now : DateTime) : GetOut :=
  match buildRequest c "GET" object none now with
  | Except.error e => ⟨Except.error e, []⟩
  | Except.ok req =>
    match sendRequest unmarshal req doer with
    | (Except.error e, _) => ⟨Except.error e, [req]⟩
    | (Except.ok resp, _) => ⟨Except.ok resp.body, [req]⟩

def Put (c : Client) (doer : Request → DoResult) (unmarshal : List Nat → Option s3Error)
    (object : String) (pyld : Option Source) (now : DateTime) : PutOut :=
  match buildRequest c "PUT" object pyld now with
  | Except.error e => ⟨Except.error e, []⟩
  | Except.ok req =>
    match sendRequest unmarshal req doer with
    | (Except.error e, _) => ⟨Except.error e, [req]⟩
    | (Except.ok _, _) => ⟨Except.ok (), [req]⟩

/-- Message of the error of a failed result, or the empty string on
success. -/
def errText {α : Type} : Except ObjStoErr α → String
  | Except.error e => e.message
  | Except.ok _ => ""

def isHttpErrB : ObjStoErr → Bool
  | ObjStoErr.httpErr _ _ => true
  | _ => false

/-! Specification-side model of the SigV4 algorithm, transcribed from the
specification's wording (section 4.2 and claim C1), to be compared with the
signRequest translation above.  Timestamp layouts are those of section 4.2
step 1, shared with the source model. -/

def specCanonicalHeaders (host payloadHash amzDate : String) : String :=
  "host:" ++ host ++ "\n" ++ "x-amz-content-sha256:" ++ payloadHash ++ "\n"
    ++ "x-amz-date:" ++ amzDate ++ "\n"

def specSignedHeadersList : String := "host;x-amz-content-sha256;x-amz-date"

/-- Canonical request per the spec, with the empty line for the absent query
string between the path and the canonical headers block. -/
def specCanonicalRequest (method path host payloadHash amzDate : String) : String :=
  method ++ "\n" ++ path ++ "\n" ++ "\n" ++ specCanonicalHeaders host payloadHash amzDate
    ++ "\n" ++ specSignedHeadersList ++ "\n" ++ payloadHash

def specCredentialScope (dateStamp region : String) : String :=
  dateStamp ++ "/" ++ region ++ "/" ++ "s3" ++ "/aws4_request"

def specStringToSign (amzDate credentialScope canonicalRequest : String) : String :=
  "AWS4-HMAC-SHA256" ++ "\n" ++ amzDate ++ "\n" ++ credentialScope ++ "\n"
    ++ sha256Hash canonicalRequest

/-- Four-stage signing-key chain per the spec: key0 = "AWS4"+secretKey,
then HMAC successively with dateStamp, region, "s3", "aws4_request". -/
def specSigningKey (secretKey dateStamp region : String) : List Nat :=
  hmacSHA256 (hmacSHA256 (hmacSHA256 (hmacSHA256 (strBytes ("AWS4" ++ secretKey)) dateStamp)
    region) "s3") "aws4_request"

/-- Authorization header per the spec, assembled from the credential scope,
the fixed signed-headers list and the hex HMAC signature of the
string-to-sign under the derived signing key. -/
def specAuthorization (method region host path accessKey secretKey payloadHash : String)
    (t : DateTime) : String :=
  let amzDate := fmtAmzDate t
  let dateStamp := fmtDateStamp t
  let credentialScope := specCredentialScope dateStamp region
  "AWS4-HMAC-SHA256 Credential=" ++ accessKey ++ "/" ++ credentialScope
    ++ ", SignedHeaders=" ++ specSignedHeadersList ++ ", Signature="
    ++ hexEncode (hmacSHA256 (specSigningKey secretKey dateStamp region)
        (specStringToSign amzDate credentialScope
          (specCanonicalRequest method path host payloadHash amzDate)))

/-! Concrete instances used by counterexamples and witnesses. -/

def cEx : Client := ⟨"r1", "https", "h1", "b1", "AK", "SK"⟩

def tEx : DateTime := ⟨2026, 1, 2, 3, 4, 5⟩

def fallbackReq : Request := ⟨"", "", "", 0, [], []⟩

def doerErr : Request → DoResult := fun _ => DoResult.err

/-- Unmarshaller modelling xml.Unmarshal on bodies without any XML element,
on which Go's decoder returns an error for every input it is given here. -/
def uNone : List Nat → Option s3Error := fun _ => none

/-- Unmarshaller modelling xml.Unmarshal behaviour on the well-formed
document Foo (self-closing element): decoding succeeds and leaves every
struct field at its zero value; all other bodies fail to decode. -/
def uFoo : List Nat → Option s3Error :=
  fun bs => if bs = strBytes "<Foo/>" then some ⟨"", "", ""⟩ else none

def srcOk : Source := ⟨[104, 105], 0, false, false⟩

def srcBad : Source := ⟨[1, 2], 0, true, true⟩

/-- Source positioned past its start: one byte already consumed. -/
def srcMid : Source := ⟨[48, 49], 1, false, false⟩

def respEx : Response := ⟨500, strBytes "nope", "Hkey: Hval"⟩

def provRespEx : Response := ⟨500, strBytes "<Foo/>", "HD"⟩

/-- Request built over the mid-position source, for the C2 counterexample. -/
def reqMid : Request :=
  match buildRequest cEx "PUT" "k" (some srcMid) tEx with
  | Except.ok r => r
  | Except.error _ => fallbackReq

def c2wReq : Request :=
  match buildRequest cEx "PUT" "k" (some srcOk) tEx with
  | Except.ok r => r
  | Except.error _ => fallbackReq

def c5wReq : Request :=
  match buildRequest cEx "PUT" "k2" (some srcOk) tEx with
  | Except.ok r => r
  | Except.error _ => fallbackReq

def c8wGet : Request := (Get cEx doerErr uNone "k" tEx).calls.headD fallbackReq

def c8wPut : Request := (Put cEx doerErr uNone "k" (some srcOk) tEx).calls.headD fallbackReq

def c10wReq : Request := (Get cEx doerErr uNone "kk" tEx).calls.headD fallbackReq

/-! Theorems.  The first three record the SHA-256 and HMAC-SHA256 test
vectors, validating the primitive embeddings against published values. -/

example : sha256Hex [] = "e3b0c44298fc1c149afbf4c8996fb92427ae41e4649b934ca495991b7852b855" := by
  decide

example : sha256Hex (strBytes "abc")
    = "ba7816bf8f01cfea414140de5dae2223b00361a396177a9cb410ff61f20015ad" := by
  decide

example : hexEncode (hmacBytes (strBytes "key") (strBytes "The quick brown fox jumps over the lazy dog"))
    = "f7bc83f430538424b13298e6aa6fb143ef4d59a14946175997479dbc2d1a3cd8" := by
  decide

/-- Helper equation: signRequest returns exactly the three-entry header
list, with the Authorization value equal to the spec-side formula. -/
lemma signRequest_eq (method region host path accessKey secretKey payloadHash : String)
    (t : DateTime) :
    signRequest method region host path accessKey secretKey payloadHash t
      = [("Authorization",
            specAuthorization method region host path accessKey secretKey payloadHash t),
         ("x-amz-date", fmtAmzDate t),
         ("x-amz-content-sha256", payloadHash)] := rfl

/-- Empty-input SHA-256 digest, the well-known vector. -/
lemma sha256Hex_nil :
    sha256Hex [] = "e3b0c44298fc1c149afbf4c8996fb92427ae41e4649b934ca495991b7852b855" := by
  decide

/-- C1: signRequest produces the Authorization header by the fixed SigV4
algorithm — canonical request, credential scope, string-to-sign, four-stage
HMAC-SHA256 key chain and final header assembly exactly as the spec states
them, for every input tuple. -/
theorem signRequest_matches_sigv4_spec
    (method region host path accessKey secretKey payloadHash : String) (t : DateTime) :
    List.lookup "Authorization"
        (signRequest method region host path accessKey secretKey payloadHash t)
      = some (specAuthorization method region host path accessKey secretKey payloadHash t) :=
  rfl

/-- C7: signRequest is deterministic — two invocations on equal inputs
return identical signed-header lists, in particular identical Authorization
values; the embedding is a pure function. -/
theorem signRequest_deterministic
    (m m2 r r2 h h2 p p2 a a2 s s2 ph ph2 : String) (t t2 : DateTime)
    (em : m = m2) (er : r = r2) (eh : h = h2) (ep : p = p2) (ea : a = a2) (es : s = s2)
    (eph : ph = ph2) (et : t = t2) :
    signRequest m r h p a s ph t = signRequest m2 r2 h2 p2 a2 s2 ph2 t2 := by
  subst em er eh ep ea es eph et
  rfl

/-- Witness for C7 at concrete inputs. -/
theorem signRequest_deterministic_witness :
    signRequest "GET" "us-east-1" "host.example" "/b/k" "AK" "SK" "deadbeef" ⟨2026, 1, 2, 3, 4, 5⟩
      = signRequest "GET" "us-east-1" "host.example" "/b/k" "AK" "SK" "deadbeef"
          ⟨2026, 1, 2, 3, 4, 5⟩ :=
  signRequest_deterministic "GET" "GET" "us-east-1" "us-east-1" "host.example" "host.example"
    "/b/k" "/b/k" "AK" "AK" "SK" "SK" "deadbeef" "deadbeef"
    ⟨2026, 1, 2, 3, 4, 5⟩ ⟨2026, 1, 2, 3, 4, 5⟩ rfl rfl rfl rfl rfl rfl rfl rfl

/-- Helper: the blank-object error message contains the expected fragment. -/
lemma blank_msg_frag : strIncludes ObjStoErr.blankObject.message "cannot be blank" = true := by
  decide

/-- C4: with a blank object key, Get and Put fail with an error whose
message contains "cannot be blank", and hand zero requests to the injected
transport, for every client, transport, unmarshaller, payload and time. -/
theorem blank_key_no_calls (c : Client) (doer : Request → DoResult)
    (unmarshal : List Nat → Option s3Error) (pyld : Option Source) (now : DateTime) :
    (Get c doer unmarshal "" now).calls = []
    ∧ strIncludes (errText (Get c doer unmarshal "" now).result) "cannot be blank" = true
    ∧ (Put c doer unmarshal "" pyld now).calls = []
    ∧ strIncludes (errText (Put c doer unmarshal "" pyld now).result) "cannot be blank" = true :=
  ⟨rfl, blank_msg_frag, rfl, blank_msg_frag⟩

/-- C6: an absent payload source, and an empty well-behaved source at any
position, both hash to the SHA-256 digest of zero bytes — the stated
constant — with length 0. -/
theorem hashPayload_empty_vector (p : Nat) :
    hashPayload none
      = Except.ok ("e3b0c44298fc1c149afbf4c8996fb92427ae41e4649b934ca495991b7852b855",
          (0, none))
    ∧ hashPayload (some ⟨[], p, false, false⟩)
      = Except.ok ("e3b0c44298fc1c149afbf4c8996fb92427ae41e4649b934ca495991b7852b855",
          (0, some ⟨[], 0, false, false⟩)) := by
  constructor
  · rw [show hashPayload none = Except.ok (sha256Hex [], (0, none)) from rfl, sha256Hex_nil]
  · simp only [hashPayload, Bool.false_eq_true, if_false, List.drop_nil, List.length_nil,
      sha256Hex_nil]

/-- Inversion for buildRequest: a successfully built request records the
composed path and URI, the content length and header set from the payload
hash stage, and the body the rewound source will transmit. -/
lemma buildRequest_ok_inv {c : Client} {m object : String} {pyld : Option Source}
    {now : DateTime} {r : Request} (hb : buildRequest c m object pyld now = Except.ok r) :
    ∃ hsh n p2, hashPayload pyld = Except.ok (hsh, (n, p2))
      ∧ r = { method := m
              uri := c.scheme ++ "://" ++ c.host ++ ("/" ++ c.bucket ++ "/" ++ object)
              path := "/" ++ c.bucket ++ "/" ++ object
              contentLength := n
              headers := signRequest m c.region c.host ("/" ++ c.bucket ++ "/" ++ object)
                  c.accessKey c.secretKey hsh now
              body := match p2 with
                      | none => []
                      | some s2 => s2.data.drop s2.pos } := by
  unfold buildRequest at hb
  split at hb
  · exact absurd hb (by simp)
  · split at hb
    · exact absurd hb (by simp)
    · next hsh n p2 heq =>
        exact ⟨hsh, n, p2, heq, (Except.ok.injEq .. ▸ hb).symm⟩

/-- Helper: with a non-blank key, Get hands the transport exactly the one
request buildRequest produced. -/
lemma Get_calls_eq (c : Client) (doer : Request → DoResult)
    (unmarshal : List Nat → Option s3Error) (object : String) (now : DateTime)
    (req : Request) (hb : buildRequest c "GET" object none now = Except.ok req) :
    (Get c doer unmarshal object now).calls = [req] := by
  unfold Get
  rw [hb]
  rcases hs : sendRequest unmarshal req doer with ⟨res, closed⟩
  cases res <;> simp [hs]

/-- Helper: with a successful build, Put hands the transport exactly the one
request buildRequest produced. -/
lemma Put_calls_eq (c : Client) (doer : Request → DoResult)
    (unmarshal : List Nat → Option s3Error) (object : String) (pyld : Option Source)
    (now : DateTime) (req : Request)
    (hb : buildRequest c "PUT" object pyld now = Except.ok req) :
    (Put c doer unmarshal object pyld now).calls = [req] := by
  unfold Put
  rw [hb]
  rcases hs : sendRequest unmarshal req doer with ⟨res, closed⟩
  cases res <;> simp [hs]

/-- Helper: with a failed build, Put makes no transport call. -/
lemma Put_calls_err (c : Client) (doer : Request → DoResult)
    (unmarshal : List Nat → Option s3Error) (object : String) (pyld : Option Source)
    (now : DateTime) (e : ObjStoErr)
    (hb : buildRequest c "PUT" object pyld now = Except.error e) :
    (Put c doer unmarshal object pyld now).calls = [] := by
  unfold Put
  rw [hb]

/-- C8: for any non-blank object key, every request Get or Put hands to the
transport carries exactly the path /bucket/key and the URI
scheme://host followed by that path. -/
theorem get_put_path_uri (c : Client) (doer : Request → DoResult)
    (unmarshal : List Nat → Option s3Error) (object : String) (pyld : Option Source)
    (now : DateTime) (r r2 : Request)
    (hobj : object ≠ "")
    (hr : r ∈ (Get c doer unmarshal object now).calls)
    (hr2 : r2 ∈ (Put c doer unmarshal object pyld now).calls) :
    r.path = "/" ++ c.bucket ++ "/" ++ object
    ∧ r.uri = c.scheme ++ "://" ++ c.host ++ r.path
    ∧ r2.path = "/" ++ c.bucket ++ "/" ++ object
    ∧ r2.uri = c.scheme ++ "://" ++ c.host ++ r2.path := by
  have hg : buildRequest c "GET" object none now
      = Except.ok { method := "GET"
                    uri := c.scheme ++ "://" ++ c.host ++ ("/" ++ c.bucket ++ "/" ++ object)
                    path := "/" ++ c.bucket ++ "/" ++ object
                    contentLength := 0
                    headers := signRequest "GET" c.region c.host
                        ("/" ++ c.bucket ++ "/" ++ object) c.accessKey c.secretKey
                        (sha256Hex []) now
                    body := [] } := by
    unfold buildRequest
    rw [if_neg hobj]
    rfl
  rw [Get_calls_eq c doer unmarshal object now _ hg, List.mem_singleton] at hr
  subst hr
  refine ⟨rfl, rfl, ?_, ?_⟩ <;>
  · rcases hbp : buildRequest c "PUT" object pyld now with e | req2
    · rw [Put_calls_err c doer unmarshal object pyld now e hbp] at hr2
      exact absurd hr2 (List.not_mem_nil r2)
    · rw [Put_calls_eq c doer unmarshal object pyld now req2 hbp, List.mem_singleton] at hr2
      subst hr2
      obtain ⟨hsh, n, p2, _, hreq⟩ := buildRequest_ok_inv hbp
      rw [hreq]

/-- C10: Get always builds with a nil payload, so every request it hands to
the transport carries the empty-body hash in x-amz-content-sha256 and a zero
declared content length, and hashPayload cannot fail on that path. -/
theorem get_nil_payload_empty_hash (c : Client) (doer : Request → DoResult)
    (unmarshal : List Nat → Option s3Error) (object : String) (now : DateTime)
    (r : Request)
    (hobj : object ≠ "")
    (hr : r ∈ (Get c doer unmarshal object now).calls) :
    getHeader r "x-amz-content-sha256"
      = some "e3b0c44298fc1c149afbf4c8996fb92427ae41e4649b934ca495991b7852b855"
    ∧ r.contentLength = 0
    ∧ hashPayload none
      = Except.ok ("e3b0c44298fc1c149afbf4c8996fb92427ae41e4649b934ca495991b7852b855",
          (0, none)) := by
  have hg : buildRequest c "GET" object none now
      = Except.ok { method := "GET"
                    uri := c.scheme ++ "://" ++ c.host ++ ("/" ++ c.bucket ++ "/" ++ object)
                    path := "/" ++ c.bucket ++ "/" ++ object
                    contentLength := 0
                    headers := signRequest "GET" c.region c.host
                        ("/" ++ c.bucket ++ "/" ++ object) c.accessKey c.secretKey
                        (sha256Hex []) now
                    body := [] } := by
    unfold buildRequest
    rw [if_neg hobj]
    rfl
  rw [Get_calls_eq c doer unmarshal object now _ hg, List.mem_singleton] at hr
  subst hr
  refine ⟨?_, rfl, ?_⟩
  · rw [show getHeader
        { method := "GET"
          uri := c.scheme ++ "://" ++ c.host ++ ("/" ++ c.bucket ++ "/" ++ object)
          path := "/" ++ c.bucket ++ "/" ++ object
          contentLength := 0
          headers := signRequest "GET" c.region c.host ("/" ++ c.bucket ++ "/" ++ object)
              c.accessKey c.secretKey (sha256Hex []) now
          body := [] } "x-amz-content-sha256" = some (sha256Hex []) from rfl, sha256Hex_nil]
  · rw [show hashPayload none = Except.ok (sha256Hex [], (0, none)) from rfl, sha256Hex_nil]

/-- C5: a present, well-behaved source is read fully from its position to
yield the digest and byte count, is rewound to position zero, and its count
becomes the built request's declared content length; reading failure yields
exactly the hash error and repositioning failure (after a successful read)
exactly the seek error. -/
theorem hashPayload_reads_and_rewinds (s s2 : Source) (c : Client)
    (method object : String) (now : DateTime) (r : Request)
    (hre : s.readErr = false) (hse : s.seekErr = false)
    (hb : buildRequest c method object (some s) now = Except.ok r) :
    hashPayload (some s)
      = Except.ok (sha256Hex (s.data.drop s.pos),
          ((s.data.drop s.pos).length, some { s with pos := 0 }))
    ∧ r.contentLength = (s.data.drop s.pos).length
    ∧ (hashPayload (some s2) = Except.error ObjStoErr.hashErr ↔ s2.readErr = true)
    ∧ (hashPayload (some s2) = Except.error ObjStoErr.seekErr
        ↔ s2.readErr = false ∧ s2.seekErr = true) := by
  have hok : hashPayload (some s)
      = Except.ok (sha256Hex (s.data.drop s.pos),
          ((s.data.drop s.pos).length, some { s with pos := 0 })) := by
    simp [hashPayload, hre, hse]
  refine ⟨hok, ?_, ?_, ?_⟩
  · obtain ⟨hsh, n, p2, hhp, hreq⟩ := buildRequest_ok_inv hb
    rw [hok] at hhp
    obtain ⟨h1, h2, h3⟩ : hsh = sha256Hex (s.data.drop s.pos)
        ∧ n = (s.data.drop s.pos).length ∧ p2 = some { s with pos := 0 } := by
      have := (Except.ok.injEq .. ▸ hhp.symm)
      exact ⟨congrArg Prod.fst this, congrArg Prod.fst (congrArg Prod.snd this),
        congrArg Prod.snd (congrArg Prod.snd this)⟩
    rw [hreq, h2]
  · unfold hashPayload
    rcases h2r : s2.readErr <;> rcases h2s : s2.seekErr <;> simp [h2r, h2s]
  · unfold hashPayload
    rcases h2r : s2.readErr <;> rcases h2s : s2.seekErr <;> simp [h2r, h2s]

/-- C2 (amended): for every request built over an absent payload, or over a
payload source positioned at its start, the x-amz-content-sha256 header
equals the SHA-256 hex of the bytes transmitted as the body after the seek
reset, and the same hash value and the single captured timestamp are the
ones embedded in the canonical request behind the Authorization header. -/
theorem payload_hash_header_consistency (c : Client) (method object : String)
    (pyld : Option Source) (now : DateTime) (r : Request)
    (hpos : ∀ s, pyld = some s → s.pos = 0)
    (hb : buildRequest c method object pyld now = Except.ok r) :
    getHeader r "x-amz-content-sha256" = some (sha256Hex r.body)
    ∧ getHeader r "x-amz-date" = some (fmtAmzDate now)
    ∧ getHeader r "Authorization"
      = some (specAuthorization method c.region c.host r.path c.accessKey c.secretKey
          (sha256Hex r.body) now) := by
  obtain ⟨hsh, n, p2, hhp, hreq⟩ := buildRequest_ok_inv hb
  cases pyld with
  | none =>
    rw [show hashPayload none = Except.ok (sha256Hex [], (0, none)) from rfl] at hhp
    simp only [Except.ok.injEq, Prod.mk.injEq] at hhp
    obtain ⟨h1, h2, h3⟩ := hhp
    subst h1 h2 h3 hreq
    exact ⟨rfl, rfl, rfl⟩
  | some s =>
    have hp : s.pos = 0 := hpos s rfl
    rcases hre : s.readErr with _ | _
    · rcases hse : s.seekErr with _ | _
      · rw [show hashPayload (some s)
            = if s.readErr then Except.error ObjStoErr.hashErr
              else if s.seekErr then Except.error ObjStoErr.seekErr
              else Except.ok (sha256Hex (s.data.drop s.pos), ((s.data.drop s.pos).length,
                some { s with pos := 0 })) from rfl, hre, hse] at hhp
        simp only [Bool.false_eq_true, if_false, Except.ok.injEq, Prod.mk.injEq] at hhp
        obtain ⟨h1, h2, h3⟩ := hhp
        subst h1 h2 h3 hreq
        rw [hp]
        exact ⟨rfl, rfl, rfl⟩
      · rw [show hashPayload (some s)
            = if s.readErr then Except.error ObjStoErr.hashErr
              else if s.seekErr then Except.error ObjStoErr.seekErr
              else Except.ok (sha256Hex (s.data.drop s.pos), ((s.data.drop s.pos).length,
                some { s with pos := 0 })) from rfl, hre, hse] at hhp
        simp at hhp
    · rw [show hashPayload (some s)
          = if s.readErr then Except.error ObjStoErr.hashErr
            else if s.seekErr then Except.error ObjStoErr.seekErr
            else Except.ok (sha256Hex (s.data.drop s.pos), ((s.data.drop s.pos).length,
              some { s with pos := 0 })) from rfl, hre] at hhp
      simp at hhp

/-- C2 counterexample: a payload source positioned past its start builds
successfully, yet the x-amz-content-sha256 header (the hash of the bytes
from the source's position) differs from the hash of the bytes the rewound
source transmits as the body, refuting the claim for every built request. -/
theorem buildRequest_hash_body_mismatch :
    buildRequest cEx "PUT" "k" (some srcMid) tEx = Except.ok reqMid
    ∧ getHeader reqMid "x-amz-content-sha256" ≠ some (sha256Hex reqMid.body) := by
  refine ⟨rfl, ?_⟩
  decide

/-- Witness for C2 at a source positioned at its start. -/
theorem payload_hash_header_consistency_witness :
    getHeader c2wReq "x-amz-content-sha256" = some (sha256Hex c2wReq.body)
    ∧ getHeader c2wReq "x-amz-date" = some (fmtAmzDate tEx)
    ∧ getHeader c2wReq "Authorization"
      = some (specAuthorization "PUT" cEx.region cEx.host c2wReq.path cEx.accessKey
          cEx.secretKey (sha256Hex c2wReq.body) tEx) :=
  payload_hash_header_consistency cEx "PUT" "k" (some srcOk) tEx c2wReq
    (fun s hs => by injection hs with h; exact h ▸ rfl) rfl

/-- Witness for C5 on a two-byte source and a read-and-seek-failing one. -/
theorem hashPayload_reads_and_rewinds_witness :
    hashPayload (some srcOk)
      = Except.ok (sha256Hex (srcOk.data.drop srcOk.pos),
          ((srcOk.data.drop srcOk.pos).length, some { srcOk with pos := 0 }))
    ∧ c5wReq.contentLength = (srcOk.data.drop srcOk.pos).length
    ∧ (hashPayload (some srcBad) = Except.error ObjStoErr.hashErr ↔ srcBad.readErr = true)
    ∧ (hashPayload (some srcBad) = Except.error ObjStoErr.seekErr
        ↔ srcBad.readErr = false ∧ srcBad.seekErr = true) :=
  hashPayload_reads_and_rewinds srcOk srcBad cEx "PUT" "k2" tEx c5wReq rfl rfl rfl

/-- Witness for C8 on concrete Get and Put calls. -/
theorem get_put_path_uri_witness :
    c8wGet.path = "/" ++ cEx.bucket ++ "/" ++ "k"
    ∧ c8wGet.uri = cEx.scheme ++ "://" ++ cEx.host ++ c8wGet.path
    ∧ c8wPut.path = "/" ++ cEx.bucket ++ "/" ++ "k"
    ∧ c8wPut.uri = cEx.scheme ++ "://" ++ cEx.host ++ c8wPut.path :=
  get_put_path_uri cEx doerErr uNone "k" (some srcOk) tEx c8wGet c8wPut
    (by decide)
    (by show c8wGet ∈ [c8wGet]; exact List.mem_singleton.mpr rfl)
    (by show c8wPut ∈ [c8wPut]; exact List.mem_singleton.mpr rfl)

/-- Witness for C10 on a concrete Get call. -/
theorem get_nil_payload_empty_hash_witness :
    getHeader c10wReq "x-amz-content-sha256"
      = some "e3b0c44298fc1c149afbf4c8996fb92427ae41e4649b934ca495991b7852b855"
    ∧ c10wReq.contentLength = 0
    ∧ hashPayload none
      = Except.ok ("e3b0c44298fc1c149afbf4c8996fb92427ae41e4649b934ca495991b7852b855",
          (0, none)) :=
  get_nil_payload_empty_hash cEx doerErr uNone "kk" tEx c10wReq (by decide)
    (by show c10wReq ∈ [c10wReq]; exact List.mem_singleton.mpr rfl)

/-- Helper: every list starts with itself. -/
lemma listStarts_self (l : List Char) : listStarts l l = true := by
  induction l with
  | nil => rfl
  | cons a t ih => simp [listStarts, ih]

/-- Helper: a list is found as a substring at the end of any extension. -/
lemma listHasSub_suffix (sub x : List Char) : listHasSub sub (x ++ sub) = true := by
  induction x with
  | nil =>
    cases sub with
    | nil => rfl
    | cons a t => simp [listHasSub, listStarts_self]
  | cons a t ih => simp [listHasSub, ih]

/-- Helper: a string contains any suffix appended to it. -/
lemma strIncludes_append_right (x hs : String) : strIncludes (x ++ hs) hs = true := by
  unfold strIncludes
  rw [show (x ++ hs).toList = x.toList ++ hs.toList by simp [String.toList]]
  exact listHasSub_suffix hs.toList x.toList

/-- C3 (amended): on a non-2xx response the body is closed and an error
returned — the provider error carrying the decoded code, message and
request id plus the response headers when the XML decodes, the generic HTTP
error carrying the raw status and truncated body when it does not; the
response headers appear in the provider error's message. -/
theorem sendRequest_non2xx_classification (unmarshal : List Nat → Option s3Error)
    (req : Request) (doer : Request → DoResult) (resp : Response) (s3e : s3Error)
    (hdo : doer req = DoResult.ok resp)
    (hst : resp.statusCode < 200 ∨ 300 ≤ resp.statusCode) :
    (sendRequest unmarshal req doer).2 = true
    ∧ (unmarshal (resp.body.take 4096) = none →
        (sendRequest unmarshal req doer).1
          = Except.error (ObjStoErr.httpErr resp.statusCode
              (strOfBytes (resp.body.take 4096))))
    ∧ (unmarshal (resp.body.take 4096) = some s3e →
        (sendRequest unmarshal req doer).1
          = Except.error (ObjStoErr.provider s3e.Code s3e.RequestID s3e.Message resp.headers)
        ∧ strIncludes
            (ObjStoErr.provider s3e.Code s3e.RequestID s3e.Message resp.headers).message
            resp.headers = true) := by
  simp only [sendRequest, hdo]
  rw [if_pos hst]
  refine ⟨rfl, fun h => ?_, fun h => ⟨?_, ?_⟩⟩
  · simp [parseS3Error, h]
  · simp [parseS3Error, h]
  · exact strIncludes_append_right _ _

/-- C3 counterexample: when the body does not decode as the error XML shape
the generic branch is taken, the response body is closed and an error is
returned, but that error's message does not include the response headers,
refuting the both-cases part of the claim. -/
theorem sendRequest_headers_not_in_http_error :
    (sendRequest uNone fallbackReq (fun _ => DoResult.ok respEx)).2 = true
    ∧ (sendRequest uNone fallbackReq (fun _ => DoResult.ok respEx)).1
        = Except.error (ObjStoErr.httpErr 500 "nope")
    ∧ strIncludes (ObjStoErr.httpErr 500 "nope").message respEx.headers = false := by
  refine ⟨rfl, rfl, ?_⟩
  decide

/-- Witness for C3 exercising the provider branch. -/
theorem sendRequest_non2xx_classification_witness :
    (sendRequest uFoo fallbackReq (fun _ => DoResult.ok provRespEx)).2 = true
    ∧ (uFoo (provRespEx.body.take 4096) = none →
        (sendRequest uFoo fallbackReq (fun _ => DoResult.ok provRespEx)).1
          = Except.error (ObjStoErr.httpErr provRespEx.statusCode
              (strOfBytes (provRespEx.body.take 4096))))
    ∧ (uFoo (provRespEx.body.take 4096) = some ⟨"", "", ""⟩ →
        (sendRequest uFoo fallbackReq (fun _ => DoResult.ok provRespEx)).1
          = Except.error (ObjStoErr.provider "" "" "" provRespEx.headers)
        ∧ strIncludes (ObjStoErr.provider "" "" "" provRespEx.headers).message
            provRespEx.headers = true) :=
  sendRequest_non2xx_classification uFoo fallbackReq (fun _ => DoResult.ok provRespEx)
    provRespEx ⟨"", "", ""⟩ rfl (by decide)

/-- C9: parseS3Error takes the generic branch exactly when unmarshalling of
the truncated body fails; a well-formed document lacking the expected
fields, such as Foo, yields the provider error with empty code, message and
request id, not the generic HTTP error. -/
theorem parseS3Error_generic_iff_unmarshal_fails (unmarshal : List Nat → Option s3Error)
    (resp : Response) (st : Nat) (hs : String)
    (hfoo : unmarshal (strBytes "<Foo/>") = some ⟨"", "", ""⟩) :
    (isHttpErrB (parseS3Error unmarshal resp) = true
      ↔ unmarshal (resp.body.take 4096) = none)
    ∧ parseS3Error unmarshal ⟨st, strBytes "<Foo/>", hs⟩ = ObjStoErr.provider "" "" "" hs := by
  constructor
  · unfold parseS3Error
    cases h : unmarshal (resp.body.take 4096) <;> simp [h, isHttpErrB]
  · have ht : (strBytes "<Foo/>").take 4096 = strBytes "<Foo/>" := by decide
    simp [parseS3Error, ht, hfoo]

/-- Witness for C9 on the concrete unmarshaller that accepts only Foo. -/
theorem parseS3Error_generic_iff_unmarshal_fails_witness :
    (isHttpErrB (parseS3Error uFoo respEx) = true ↔ uFoo (respEx.body.take 4096) = none)
    ∧ parseS3Error uFoo ⟨404, strBytes "<Foo/>", "hdrs"⟩
      = ObjStoErr.provider "" "" "" "hdrs" :=
  parseS3Error_generic_iff_unmarshal_fails uFoo respEx 404 "hdrs" (by decide)

end ObjSto
